import Mathlib

/-!
Verification model of the drone flight-plan repository: a shallow embedding
of the coordinate-frame data model (`Geodetic`, `ENU`, `Telescope`, `Site`,
`DroneTrajectory`), the site anchoring operations (`Site.set_origin`,
`Site.compute_barycenter`), the two arc-trajectory generators of
`TrajectoryPlanner`, and the observation-geometry helpers
(`telescope_to_target_aer`, `compute_boresight`).

Machine floats of the original program are modelled by real numbers; Python
exceptions are modelled by `Except PlanError`. The frame-conversion
primitives (`aer2enu`, `enu2aer`, `geodetic2ecef`, `ecef2geodetic`,
`geodetic2enu`, `enu2geodetic`) come from the external `pymap3d` library,
whose code is not part of the repository sources; they are modelled from the
specification's description of the Frame Conversion Library.
-/

namespace DronePlan

/-- Python exceptions raised by the modelled code paths. -/
inductive PlanError where
  | valueError (msg : String)
  | typeError (msg : String)
  | attributeError (msg : String)
  deriving Repr, DecidableEq

/-- WGS84 semi-major axis in meters. -/
noncomputable def wgs84_a : ℝ := 6378137.0

/-- WGS84 flattening. -/
noncomputable def wgs84_f : ℝ := 1 / 298.257223563

/-- WGS84 first eccentricity squared, e2 = f * (2 - f). -/
noncomputable def wgs84_e2 : ℝ := wgs84_f * (2 - wgs84_f)

/-- Two-argument arctangent: the angle of the point (x, y) in (-pi, pi],
with atan2 0 0 = 0. Arguments follow the usual (y, x) order. -/
noncomputable def atan2 (y x : ℝ) : ℝ :=
  if 0 < x then Real.arctan (y / x)
  else if x < 0 then
    (if 0 ≤ y then Real.arctan (y / x) + Real.pi
     else Real.arctan (y / x) - Real.pi)
  else
    (if 0 < y then Real.pi / 2 else if y < 0 then -(Real.pi / 2) else 0)

/-- Degrees to radians. -/
noncomputable def deg2rad (d : ℝ) : ℝ := d * (Real.pi / 180)

/-- Radians to degrees. -/
noncomputable def rad2deg (r : ℝ) : ℝ := r * (180 / Real.pi)

/-- Modelled from the spec: `pymap3d.aer2enu` (§4.1 `aer_to_enu`), the code of
which is not in the repository sources. Converts azimuth (degrees, clockwise
from North), elevation (degrees) and slant range (meters) to an
East-North-Up offset. -/
noncomputable def aer2enu (az el srange : ℝ) : ℝ × ℝ × ℝ :=
  let azr := deg2rad az
  let elr := deg2rad el
  (srange * Real.cos elr * Real.sin azr,
   srange * Real.cos elr * Real.cos azr,
   srange * Real.sin elr)

/-- Modelled from the spec: `pymap3d.enu2aer` (§4.1 `enu_to_aer`), the code of
which is not in the repository sources. Returns azimuth in [0, 360) degrees
measured clockwise from North (0 when e = n = 0), elevation in [-90, 90]
degrees, and the slant range. -/
noncomputable def enu2aer (e n u : ℝ) : ℝ × ℝ × ℝ :=
  let horiz := Real.sqrt (e ^ 2 + n ^ 2)
  let azr := atan2 e n
  let azr := if azr < 0 then azr + 2 * Real.pi else azr
  (rad2deg azr, rad2deg (atan2 u horiz), Real.sqrt (e ^ 2 + n ^ 2 + u ^ 2))

/-- Modelled from the spec: `pymap3d.geodetic2ecef` (§4.1 `geodetic_to_ecef`),
the code of which is not in the repository sources. Closed-form ellipsoidal
formula using the prime-vertical radius of curvature. -/
noncomputable def geodetic2ecef (lat lon alt : ℝ) : ℝ × ℝ × ℝ :=
  let phi := deg2rad lat
  let lam := deg2rad lon
  let nrad := wgs84_a / Real.sqrt (1 - wgs84_e2 * (Real.sin phi) ^ 2)
  ((nrad + alt) * Real.cos phi * Real.cos lam,
   (nrad + alt) * Real.cos phi * Real.sin lam,
   (nrad * (1 - wgs84_e2) + alt) * Real.sin phi)

/-- One step of the iterative latitude recovery for `ecef2geodetic`. -/
noncomputable def ecefLatStep (p z lat : ℝ) : ℝ :=
  let nrad := wgs84_a / Real.sqrt (1 - wgs84_e2 * (Real.sin lat) ^ 2)
  atan2 (z + wgs84_e2 * nrad * Real.sin lat) p

/-- Modelled from the spec: `pymap3d.ecef2geodetic` (§4.1 `ecef_to_geodetic`),
the code of which is not in the repository sources. Iterative latitude
recovery with a fixed maximum iteration count, then longitude and altitude. -/
noncomputable def ecef2geodeticTriple (x y z : ℝ) : ℝ × ℝ × ℝ :=
  let p := Real.sqrt (x ^ 2 + y ^ 2)
  let lat := (ecefLatStep p z)^[10] (atan2 z (p * (1 - wgs84_e2)))
  let nrad := wgs84_a / Real.sqrt (1 - wgs84_e2 * (Real.sin lat) ^ 2)
  (rad2deg lat, rad2deg (atan2 y x), p / Real.cos lat - nrad)

/-- Modelled from the spec: `pymap3d.geodetic2enu` (§4.1 `geodetic_to_enu`),
the code of which is not in the repository sources. Converts to ECEF,
subtracts the origin's ECEF, and rotates by the origin's local East-North-Up
rotation matrix. -/
noncomputable def geodetic2enu (lat lon h lat0 lon0 h0 : ℝ) : ℝ × ℝ × ℝ :=
  let pt := geodetic2ecef lat lon h
  let o := geodetic2ecef lat0 lon0 h0
  let dx := pt.1 - o.1
  let dy := pt.2.1 - o.2.1
  let dz := pt.2.2 - o.2.2
  let phi := deg2rad lat0
  let lam := deg2rad lon0
  (-Real.sin lam * dx + Real.cos lam * dy,
   -Real.sin phi * Real.cos lam * dx - Real.sin phi * Real.sin lam * dy
     + Real.cos phi * dz,
   Real.cos phi * Real.cos lam * dx + Real.cos phi * Real.sin lam * dy
     + Real.sin phi * dz)

/-- Modelled from the spec: `pymap3d.enu2geodetic` (§4.1 `enu_to_geodetic`),
the code of which is not in the repository sources. Applies the inverse local
rotation, adds the origin's ECEF, and recovers geodetic coordinates. -/
noncomputable def enu2geodeticTriple (e n u lat0 lon0 h0 : ℝ) : ℝ × ℝ × ℝ :=
  let o := geodetic2ecef lat0 lon0 h0
  let phi := deg2rad lat0
  let lam := deg2rad lon0
  let dx := -Real.sin lam * e - Real.sin phi * Real.cos lam * n
      + Real.cos phi * Real.cos lam * u
  let dy := Real.cos lam * e - Real.sin phi * Real.sin lam * n
      + Real.cos phi * Real.sin lam * u
  let dz := Real.cos phi * n + Real.sin phi * u
  ecef2geodeticTriple (o.1 + dx) (o.2.1 + dy) (o.2.2 + dz)

/-- Model of `Geodetic` dataclass of `data_containers.py`: latitude and longitude in
degrees, altitude in meters. -/
@[ext]
structure Geodetic where
  lat : ℝ
  lon : ℝ
  alt : ℝ

/-- Model of `ENU` dataclass of `data_containers.py`: East-North-Up offsets in
meters. -/
@[ext]
structure ENU where
  e : ℝ
  n : ℝ
  u : ℝ

/-- View of a numeric (e, n, u) triple as an `ENU` value. -/
def ENU.ofTriple (v : ℝ × ℝ × ℝ) : ENU := ⟨v.1, v.2.1, v.2.2⟩

/-- View of a numeric (lat, lon, alt) triple as a `Geodetic` value. -/
def Geodetic.ofTriple (v : ℝ × ℝ × ℝ) : Geodetic := ⟨v.1, v.2.1, v.2.2⟩

/-- Model of `ENU.__add__`: component-wise addition. -/
instance : Add ENU := ⟨fun a b => ⟨a.e + b.e, a.n + b.n, a.u + b.u⟩⟩

/-- Model of `ENU.__sub__`: component-wise subtraction. -/
instance : Sub ENU := ⟨fun a b => ⟨a.e - b.e, a.n - b.n, a.u - b.u⟩⟩

/-- Python attribute lookup on a `Geodetic` instance: the dataclass defines
exactly the attributes `lat`, `lon` and `alt`; any other name raises
`AttributeError`. -/
noncomputable def Geodetic.getattr (g : Geodetic) (name : String) :
    Except PlanError ℝ :=
  if name = "lat" then .ok g.lat
  else if name = "lon" then .ok g.lon
  else if name = "alt" then .ok g.alt
  else .error (.attributeError name)

/-- Model of `Geodetic.as_array` of `data_containers.py`: returns
`np.array([self.e, self.n, self.u])`, reading attributes `e`, `n`, `u` on
`self` via Python attribute lookup. -/
noncomputable def Geodetic.as_array (g : Geodetic) :
    Except PlanError (ℝ × ℝ × ℝ) :=
  match g.getattr "e" with
  | .error err => .error err
  | .ok e =>
    match g.getattr "n" with
    | .error err => .error err
    | .ok n =>
      match g.getattr "u" with
      | .error err => .error err
      | .ok u => .ok (e, n, u)

/-- Model of `Telescope` dataclass of `data_containers.py`. The `ecef` field is never
written by the modelled code paths and is omitted. -/
structure Telescope where
  name : String
  geodetic : Geodetic
  focalplane_height : ℝ := 0
  enu : Option ENU := none

/-- Model of `Site` of `data_containers.py`: a named set of telescopes (the insertion
order of the Python dict is modelled by a list), an optional origin and an
optional landing site. -/
structure Site where
  telescopes : List Telescope
  origin : Option Geodetic := none
  landing_site : Option Geodetic := none

/-- Model of `DroneTrajectory` dataclass of `data_containers.py`. The numpy arrays
are modelled by lists; `geodetic` rows are (lat, lon, alt) triples. -/
structure DroneTrajectory where
  enu : List ENU
  yaw : List ℝ
  pitch : List ℝ
  npoints : ℕ
  arccenter : Option ENU := none
  geodetic : Option (List (ℝ × ℝ × ℝ)) := none
  poi : Option Geodetic := none
  landing_site : Option Geodetic := none
  curveradius : Option ℝ := none
  plot_boresight : Bool := false

/-- Model of `np.linspace(a, b, n)` with `endpoint=True`, over the reals: the k-th
sample is `a + k * ((b - a) / (n - 1))`; `n = 1` yields `[a]` (the step
factor multiplies zero), `n = 0` yields the empty list. -/
noncomputable def linspace (a b : ℝ) (n : ℕ) : List ℝ :=
  (List.range n).map fun (k : ℕ) => a + (k : ℝ) * ((b - a) / ((n : ℝ) - 1))

/-- Model of `Site.compute_barycenter`: mean ECEF position of all telescopes
(focal-plane heights added to altitude), converted back to geodetic; raises
`ValueError` when the site has no telescopes. -/
noncomputable def Site.compute_barycenter (s : Site) :
    Except PlanError Geodetic :=
  if s.telescopes.isEmpty then
    .error (.valueError "No telescopes defined in the site.")
  else
    let ecefs := s.telescopes.map fun t =>
      geodetic2ecef t.geodetic.lat t.geodetic.lon
        (t.geodetic.alt + t.focalplane_height)
    let m : ℝ := (ecefs.length : ℝ)
    let g := ecef2geodeticTriple ((ecefs.map (·.1)).sum / m)
      ((ecefs.map (·.2.1)).sum / m) ((ecefs.map (·.2.2)).sum / m)
    .ok ⟨g.1, g.2.1, g.2.2⟩

/-- The ENU position `Site._update_all_enu` assigns to one telescope:
`pymap3d.geodetic2enu` of the telescope's geodetic position with the
focal-plane height added to the altitude, relative to the origin. -/
noncomputable def telescopeEnu (t : Telescope) (o : Geodetic) : ENU :=
  let r := geodetic2enu t.geodetic.lat t.geodetic.lon
    (t.geodetic.alt + t.focalplane_height) o.lat o.lon o.alt
  ⟨r.1, r.2.1, r.2.2⟩

/-- Model of `Site._update_all_enu`: recomputes every telescope's ENU position from
the site origin; raises `ValueError` when the origin is unset. -/
noncomputable def Site.update_all_enu (s : Site) : Except PlanError Site :=
  match s.origin with
  | none =>
    .error (.valueError "Origin must be set before computing ENU coordinates.")
  | some o =>
    .ok { s with telescopes :=
      s.telescopes.map fun t => { t with enu := some (telescopeEnu t o) } }

/-- Model of `Site.set_origin`: with no argument, uses the telescope barycenter (a
`ValueError` from `compute_barycenter` propagates before any state change);
then stores the origin and updates every telescope's ENU position. -/
noncomputable def Site.set_origin (s : Site) (geodetic : Option Geodetic) :
    Except PlanError Site :=
  match geodetic with
  | none =>
    match s.compute_barycenter with
    | .error err => .error err
    | .ok b => Site.update_all_enu { s with origin := some b }
  | some g => Site.update_all_enu { s with origin := some g }

/-- Model of `Site.geodetic_to_enu` on a single `Geodetic` argument: origin-bound
wrapper over `pymap3d.geodetic2enu`; raises `ValueError` when the origin is
unset. -/
noncomputable def Site.geodetic_to_enu (s : Site) (geo : Geodetic) :
    Except PlanError ENU :=
  match s.origin with
  | none => .error (.valueError "Origin must be set before converting to ENU.")
  | some o =>
    let r := geodetic2enu geo.lat geo.lon geo.alt o.lat o.lon o.alt
    .ok ⟨r.1, r.2.1, r.2.2⟩

/-- Model of `Site.enu_to_geodetic` on a single `ENU` argument: origin-bound wrapper
over `pymap3d.enu2geodetic`; raises `ValueError` when the origin is unset. -/
noncomputable def Site.enu_to_geodetic (s : Site) (p : ENU) :
    Except PlanError Geodetic :=
  match s.origin with
  | none =>
    .error (.valueError "Origin must be set before converting to Geodetic.")
  | some o =>
    let r := enu2geodeticTriple p.e p.n p.u o.lat o.lon o.alt
    .ok ⟨r.1, r.2.1, r.2.2⟩

/-- Geodetic rows derived from a list of ENU points relative to an origin
(the loop body of `pm.enu2geodetic` over a trajectory's points). -/
noncomputable def geodRows (pts : List ENU) (o : Geodetic) :
    List (ℝ × ℝ × ℝ) :=
  pts.map fun p => enu2geodeticTriple p.e p.n p.u o.lat o.lon o.alt

/-- Model of `DroneTrajectory.compute_geodetic` with a `Site` argument: converts every
ENU point to a (lat, lon, alt) row relative to the site origin; raises
`ValueError` when the origin is unset. -/
noncomputable def DroneTrajectory.compute_geodetic (tr : DroneTrajectory)
    (s : Site) : Except PlanError DroneTrajectory :=
  match s.origin with
  | none =>
    .error (.valueError "Site origin must be set to convert ENU to geodetic.")
  | some o =>
    .ok { tr with geodetic := some (geodRows tr.enu o) }

/-- Model of `TrajectoryPlanner` of `traj_planner.py`: holds the (possibly mutated)
site. -/
structure TrajectoryPlanner where
  site : Site

/-- Model of `TrajectoryPlanner.__init__`: stores the site; when the site's origin is
`None` it calls `site.set_origin()` (barycenter form), mutating the site. -/
noncomputable def TrajectoryPlanner.init (site : Site) :
    Except PlanError TrajectoryPlanner :=
  match site.origin with
  | none =>
    match site.set_origin none with
    | .error err => .error err
    | .ok s2 => .ok ⟨s2⟩
  | some _ => .ok ⟨site⟩

/-- Model of `TrajectoryPlanner.telescope_to_target_aer` on a single ENU target:
AER from the telescope's anchored ENU position to the target. Reading
`telescope.enu.e` when `enu` is `None` raises `AttributeError`. -/
noncomputable def TrajectoryPlanner.telescope_to_target_aer (t : Telescope)
    (target_enu : ENU) : Except PlanError (ℝ × ℝ × ℝ) :=
  match t.enu with
  | none => .error (.attributeError "NoneType object has no attribute e")
  | some te =>
    .ok (enu2aer (target_enu.e - te.e) (target_enu.n - te.n)
      (target_enu.u - te.u))

/-- Arithmetic mean of a list of ENU points, component-wise
(`drone_traj.enu.mean(axis=0)`). -/
noncomputable def meanENU (l : List ENU) : ENU :=
  ⟨(l.map ENU.e).sum / (l.length : ℝ),
   (l.map ENU.n).sum / (l.length : ℝ),
   (l.map ENU.u).sum / (l.length : ℝ)⟩

/-- Model of `TrajectoryPlanner.compute_boresight`: AER from the telescope to the
trajectory's arc center, falling back to the mean of the trajectory's ENU
points when `arccenter` is `None`. (The Python guard `if drone_traj.arccenter:`
tests truthiness, and an `ENU` dataclass instance defines no `__bool__` or
`__len__`, so every non-`None` value is truthy.) -/
noncomputable def TrajectoryPlanner.compute_boresight (t : Telescope)
    (drone_traj : DroneTrajectory) : Except PlanError (ℝ × ℝ × ℝ) :=
  let arcc :=
    match drone_traj.arccenter with
    | some c => c
    | none => meanENU drone_traj.enu
  TrajectoryPlanner.telescope_to_target_aer t arcc

/-- Trajectory points of an elevation sweep: for every elevation in `els`,
`pm.aer2enu(az, el, srange)` offset by the POI (the array fill of both
generators). -/
noncomputable def arcPoints (poi : ENU) (az srange : ℝ) (els : List ℝ) :
    List ENU :=
  els.map fun el =>
    let v := aer2enu az el srange
    ENU.mk (v.1 + poi.e) (v.2.1 + poi.n) (v.2.2 + poi.u)

/-- Per-point yaw/pitch/range toward the POI: `pm.enu2aer` of the reversed
displacement, exactly as both generators compute it
(`-enu_points + poi`). -/
noncomputable def arcOrient (poi : ENU) (pts : List ENU) :
    List (ℝ × ℝ × ℝ) :=
  pts.map fun p => enu2aer (-p.e + poi.e) (-p.n + poi.n) (-p.u + poi.u)

/-- Model of `TrajectoryPlanner.old_arc_trajectory_202404`: fixed-AER arc around
`poi_enu`. `np.linspace` raises `ValueError` on a negative sample count;
there is no other point-count check in the source. -/
noncomputable def TrajectoryPlanner.old_arc_trajectory_202404 (site : Site)
    (poi_enu : ENU) (slant_range az_center el_center el_range : ℝ)
    (num_steps_el : ℤ) : Except PlanError DroneTrajectory :=
  if num_steps_el < 0 then
    .error (.valueError "Number of samples must be non-negative.")
  else
    let el_vals := linspace (el_center - el_range / 2)
      (el_center + el_range / 2) num_steps_el.toNat
    let enu_points := arcPoints poi_enu az_center slant_range el_vals
    let orient := arcOrient poi_enu enu_points
    match site.enu_to_geodetic poi_enu with
    | .error err => .error err
    | .ok poiGeo =>
      let tr : DroneTrajectory :=
        { enu := enu_points, yaw := orient.map (·.1),
          pitch := orient.map (·.2.1), npoints := num_steps_el.toNat,
          poi := some poiGeo, curveradius := some slant_range }
      match tr.compute_geodetic site with
      | .error err => .error err
      | .ok tr2 => .ok { tr2 with landing_site := site.landing_site }

/-- Arc center of the nominal-pointing generator: the nominal POI plus
`pm.aer2enu` of the nominal azimuth/elevation/range. -/
noncomputable def newArcCenter (nominal_poi : ENU)
    (nominal_az nominal_el nominal_srange : ℝ) : ENU :=
  let c := aer2enu nominal_az nominal_el nominal_srange
  ⟨c.1 + nominal_poi.e, c.2.1 + nominal_poi.n, c.2.2 + nominal_poi.u⟩

/-- Center pointing of the nominal-pointing generator: `pm.enu2aer` of
(arc center - actual POI), giving (az0, el0, srange0). -/
noncomputable def newArcAer0 (arccenter poi : ENU) : ℝ × ℝ × ℝ :=
  enu2aer (arccenter.e - poi.e) (arccenter.n - poi.n) (arccenter.u - poi.u)

/-- Model of `TrajectoryPlanner.new_arc_trajectory_202412`: nominal-pointing arc. The
arc center is the nominal POI plus `aer2enu` of the nominal pointing; the
sweep center (az0, el0, srange0) is `enu2aer` of (arc center - actual POI);
elevation is swept by `delta_el` around `el0` at fixed `az0`, `srange0`. -/
noncomputable def TrajectoryPlanner.new_arc_trajectory_202412 (site : Site)
    (nominal_poi : ENU) (nominal_az nominal_el nominal_srange : ℝ)
    (poi : ENU) (delta_el : ℝ) (num_steps_el : ℤ) :
    Except PlanError DroneTrajectory :=
  let arccenter := newArcCenter nominal_poi nominal_az nominal_el
    nominal_srange
  let aer0 := newArcAer0 arccenter poi
  let az0 := aer0.1
  let el0 := aer0.2.1
  let srange0 := aer0.2.2
  if num_steps_el < 0 then
    .error (.valueError "Number of samples must be non-negative.")
  else
    let el_vals := linspace (el0 - delta_el / 2) (el0 + delta_el / 2)
      num_steps_el.toNat
    let enu_points := arcPoints poi az0 srange0 el_vals
    let orient := arcOrient poi enu_points
    match site.enu_to_geodetic poi with
    | .error err => .error err
    | .ok poiGeo =>
      let tr : DroneTrajectory :=
        { enu := enu_points, yaw := orient.map (·.1),
          pitch := orient.map (·.2.1), npoints := num_steps_el.toNat,
          arccenter := some arccenter, poi := some poiGeo,
          curveradius := some srange0 }
      match tr.compute_geodetic site with
      | .error err => .error err
      | .ok tr2 => .ok { tr2 with landing_site := site.landing_site }

/-- The trajectory value `old_arc_trajectory_202404` produces on a site whose
origin is `o`, for a non-negative point count `n`. -/
noncomputable def oldArcTraj (site : Site) (o : Geodetic) (poi_enu : ENU)
    (slant_range az_center el_center el_range : ℝ) (n : ℕ) :
    DroneTrajectory :=
  let pts := arcPoints poi_enu az_center slant_range
    (linspace (el_center - el_range / 2) (el_center + el_range / 2) n)
  { enu := pts,
    yaw := (arcOrient poi_enu pts).map (·.1),
    pitch := (arcOrient poi_enu pts).map (·.2.1),
    npoints := n,
    arccenter := none,
    geodetic := some (geodRows pts o),
    poi := some (Geodetic.ofTriple (enu2geodeticTriple poi_enu.e poi_enu.n
      poi_enu.u o.lat o.lon o.alt)),
    landing_site := site.landing_site,
    curveradius := some slant_range,
    plot_boresight := false }

/-- The trajectory value `new_arc_trajectory_202412` produces on a site whose
origin is `o`, for a non-negative point count `n`. -/
noncomputable def newArcTraj (site : Site) (o : Geodetic)
    (nominal_poi : ENU) (nominal_az nominal_el nominal_srange : ℝ)
    (poi : ENU) (delta_el : ℝ) (n : ℕ) : DroneTrajectory :=
  let arccenter := newArcCenter nominal_poi nominal_az nominal_el
    nominal_srange
  let aer0 := newArcAer0 arccenter poi
  let pts := arcPoints poi aer0.1 aer0.2.2
    (linspace (aer0.2.1 - delta_el / 2) (aer0.2.1 + delta_el / 2) n)
  { enu := pts,
    yaw := (arcOrient poi pts).map (·.1),
    pitch := (arcOrient poi pts).map (·.2.1),
    npoints := n,
    arccenter := some arccenter,
    geodetic := some (geodRows pts o),
    poi := some (Geodetic.ofTriple (enu2geodeticTriple poi.e poi.n poi.u
      o.lat o.lon o.alt)),
    landing_site := site.landing_site,
    curveradius := some aer0.2.2,
    plot_boresight := false }

theorem old_arc_eq (site : Site) (o : Geodetic) (poi_enu : ENU)
    (slant_range az_center el_center el_range : ℝ) (N : ℤ)
    (ho : site.origin = some o) (hN : 0 ≤ N) :
    TrajectoryPlanner.old_arc_trajectory_202404 site poi_enu slant_range
        az_center el_center el_range N =
      .ok (oldArcTraj site o poi_enu slant_range az_center el_center
        el_range N.toNat) := by
  unfold TrajectoryPlanner.old_arc_trajectory_202404 Site.enu_to_geodetic
    DroneTrajectory.compute_geodetic
  rw [if_neg (not_lt.mpr hN), ho]
  rfl

theorem new_arc_eq (site : Site) (o : Geodetic) (nominal_poi : ENU)
    (nominal_az nominal_el nominal_srange : ℝ) (poi : ENU) (delta_el : ℝ)
    (N : ℤ) (ho : site.origin = some o) (hN : 0 ≤ N) :
    TrajectoryPlanner.new_arc_trajectory_202412 site nominal_poi nominal_az
        nominal_el nominal_srange poi delta_el N =
      .ok (newArcTraj site o nominal_poi nominal_az nominal_el
        nominal_srange poi delta_el N.toNat) := by
  unfold TrajectoryPlanner.new_arc_trajectory_202412 Site.enu_to_geodetic
    DroneTrajectory.compute_geodetic
  rw [if_neg (not_lt.mpr hN), ho]
  rfl

theorem linspace_length (a b : ℝ) (n : ℕ) : (linspace a b n).length = n := by
  rw [linspace, List.length_map, List.length_range]

theorem getD_map {α β : Type} (f : α → β) (l : List α) (k : ℕ) (d : α)
    (d' : β) (h : k < l.length) :
    (l.map f).getD k d' = f (l.getD k d) := by
  rw [List.getD_eq_getElem l d h,
    List.getD_eq_getElem (l.map f) d' (by simpa using h), List.getElem_map]

theorem linspace_getD (a b : ℝ) (n k : ℕ) (h : k < n) (d : ℝ) :
    (linspace a b n).getD k d = a + (k : ℝ) * ((b - a) / ((n : ℝ) - 1)) := by
  have h2 : k < (linspace a b n).length := by rw [linspace_length]; exact h
  rw [List.getD_eq_getElem _ d h2]
  simp only [linspace, List.getElem_map, List.getElem_range]

@[simp] theorem ENU.add_e (a b : ENU) : (a + b).e = a.e + b.e := rfl

@[simp] theorem ENU.add_n (a b : ENU) : (a + b).n = a.n + b.n := rfl

@[simp] theorem ENU.add_u (a b : ENU) : (a + b).u = a.u + b.u := rfl

@[simp] theorem ENU.sub_e (a b : ENU) : (a - b).e = a.e - b.e := rfl

@[simp] theorem ENU.sub_n (a b : ENU) : (a - b).n = a.n - b.n := rfl

@[simp] theorem ENU.sub_u (a b : ENU) : (a - b).u = a.u - b.u := rfl

theorem arcPoints_length (poi : ENU) (az r : ℝ) (els : List ℝ) :
    (arcPoints poi az r els).length = els.length := by
  unfold arcPoints
  rw [List.length_map]

theorem arcOrient_length (poi : ENU) (pts : List ENU) :
    (arcOrient poi pts).length = pts.length := by
  unfold arcOrient
  rw [List.length_map]

theorem arcPoints_getD (poi : ENU) (az r : ℝ) (els : List ℝ) (k : ℕ)
    (hk : k < els.length) :
    (arcPoints poi az r els).getD k ⟨0, 0, 0⟩ =
      ENU.ofTriple (aer2enu az (els.getD k 0) r) + poi := by
  unfold arcPoints
  rw [getD_map _ els k 0 _ hk]
  rfl

theorem arcOrient_getD (poi : ENU) (pts : List ENU) (k : ℕ)
    (hk : k < pts.length) :
    (arcOrient poi pts).getD k (0, 0, 0) =
      enu2aer ((poi - pts.getD k ⟨0, 0, 0⟩).e) ((poi - pts.getD k ⟨0, 0, 0⟩).n)
        ((poi - pts.getD k ⟨0, 0, 0⟩).u) := by
  unfold arcOrient
  rw [getD_map _ pts k ⟨0, 0, 0⟩ _ hk]
  simp only [ENU.sub_e, ENU.sub_n, ENU.sub_u, neg_add_eq_sub]

/-- Concrete origin used by the witness sites. -/
noncomputable def g0 : Geodetic := ⟨0, 0, 0⟩

/-- Concrete telescope used by the witness sites. -/
noncomputable def tel1 : Telescope := { name := "T1", geodetic := ⟨0, 0, 0⟩ }

/-- Concrete site with one telescope and no origin. -/
noncomputable def site1 : Site := { telescopes := [tel1] }

/-- Concrete site with one telescope and origin `g0`. -/
noncomputable def site1O : Site :=
  { telescopes := [tel1], origin := some g0 }

/-- Concrete site with no telescopes and no origin. -/
noncomputable def siteEmpty : Site := { telescopes := [] }

/-- The state `site1` reaches after `set_origin g0`. -/
noncomputable def site1After : Site :=
  { telescopes := [{ tel1 with enu := some (telescopeEnu tel1 g0) }],
    origin := some g0 }

/-- C9: for every `Geodetic` value, `as_array` raises `AttributeError` and
never returns: the method reads attributes `e`, `n`, `u`, which the
`Geodetic` dataclass (fields `lat`, `lon`, `alt`) does not define. -/
theorem c9_as_array_raises (g : Geodetic) :
    Geodetic.as_array g = .error (.attributeError "e") := by
  rfl

theorem update_all_enu_eq (ts : List Telescope) (b : Geodetic)
    (ls : Option Geodetic) :
    Site.update_all_enu ⟨ts, some b, ls⟩ =
      .ok ⟨ts.map fun t => { t with enu := some (telescopeEnu t b) },
        some b, ls⟩ := rfl

theorem set_origin_some_eq (s : Site) (g : Geodetic) :
    s.set_origin (some g) =
      .ok ⟨s.telescopes.map fun t => { t with enu := some (telescopeEnu t g) },
        some g, s.landing_site⟩ := rfl

theorem set_origin_none_eq (s : Site) :
    s.set_origin none =
      (match s.compute_barycenter with
        | .error err => .error err
        | .ok b => Site.update_all_enu { s with origin := some b }) := rfl

/-- C7 counterexample: on a site with zero telescopes, `set_origin` with an
explicit `Geodetic` argument does not raise `NoTelescopesError`; it succeeds
and sets the origin, changing the site. -/
theorem c7_counterexample :
    Site.set_origin siteEmpty (some ⟨1, 2, 3⟩) =
      .ok { telescopes := [], origin := some ⟨1, 2, 3⟩,
            landing_site := none } := by
  rfl

/-- C7 (amended): on a site with zero telescopes, only the omitted-origin
(barycenter) form of `set_origin` raises `NoTelescopesError`, leaving the
site unchanged; the explicit-`Geodetic` form succeeds, setting the origin
and vacuously updating zero telescopes. -/
theorem c7_empty_site_set_origin (s : Site) (h : s.telescopes = []) :
    s.set_origin none =
      .error (.valueError "No telescopes defined in the site.") ∧
    ∀ g, s.set_origin (some g) = .ok { s with origin := some g } := by
  have hbc : s.compute_barycenter =
      .error (.valueError "No telescopes defined in the site.") := by
    unfold Site.compute_barycenter
    rw [h]
    rfl
  constructor
  · rw [set_origin_none_eq, hbc]
  · intro g
    rw [set_origin_some_eq, h]
    exact congrArg Except.ok
      (by rw [Site.mk.injEq]; exact ⟨List.map_nil, rfl, rfl⟩)

/-- C7 witness: the barycenter form on the concrete empty site raises the
error. -/
theorem c7_witness :
    siteEmpty.telescopes = [] ∧
    Site.set_origin siteEmpty none =
      .error (.valueError "No telescopes defined in the site.") :=
  ⟨rfl, (c7_empty_site_set_origin siteEmpty rfl).1⟩

/-- C8: `set_origin` with the same explicit `Geodetic` is idempotent: a
second call returns exactly the state the first call produced (same origin,
same derived ENU for every telescope). -/
theorem c8_set_origin_idempotent (s : Site) (g : Geodetic)
    (hne : s.telescopes ≠ []) (s1 : Site)
    (h : s.set_origin (some g) = .ok s1) :
    s1.set_origin (some g) = .ok s1 := by
  rw [set_origin_some_eq] at h
  injection h with hs1
  subst hs1
  rw [set_origin_some_eq]
  refine congrArg Except.ok ?_
  rw [Site.mk.injEq]
  refine ⟨?_, rfl, rfl⟩
  rw [List.map_map]
  congr 1

/-- C8 witness: idempotence at the concrete one-telescope site. -/
theorem c8_witness :
    site1.telescopes ≠ [] ∧
    Site.set_origin site1 (some g0) = .ok site1After ∧
    Site.set_origin site1After (some g0) = .ok site1After :=
  ⟨by simp [site1], rfl,
    c8_set_origin_idempotent site1 g0 (by simp [site1]) site1After rfl⟩

/-- C4: after any successful `set_origin` call (explicit or barycenter
form), the resulting state has an origin and every telescope's `enu` is
`geodetic2enu` of its geodetic position (focal-plane height added to the
altitude) relative to that new origin: origin and ENU values are updated
together, with no stale or missing telescope `enu` observable. -/
theorem c4_set_origin_consistent (s : Site) (garg : Option Geodetic)
    (s1 : Site) (h : s.set_origin garg = .ok s1) :
    ∃ o, s1.origin = some o ∧
      (∀ g, garg = some g → o = g) ∧
      ∀ t ∈ s1.telescopes,
        t.enu = some (ENU.ofTriple (geodetic2enu t.geodetic.lat
          t.geodetic.lon (t.geodetic.alt + t.focalplane_height)
          o.lat o.lon o.alt)) := by
  cases garg with
  | some g =>
    rw [set_origin_some_eq] at h
    injection h with hs1
    subst hs1
    refine ⟨g, rfl, fun g' hg' => by injection hg', ?_⟩
    intro t ht
    rcases List.mem_map.mp ht with ⟨t0, _, rfl⟩
    rfl
  | none =>
    rw [set_origin_none_eq] at h
    cases hbc : s.compute_barycenter with
    | error err => rw [hbc] at h; exact absurd h (by simp)
    | ok b =>
      rw [hbc] at h
      have h2 : Except.ok (⟨s.telescopes.map fun t =>
            { t with enu := some (telescopeEnu t b) },
          some b, s.landing_site⟩ : Site) = Except.ok s1 := h
      injection h2 with hs1
      subst hs1
      refine ⟨b, rfl, fun g' hg' => by injection hg', ?_⟩
      intro t ht
      rcases List.mem_map.mp ht with ⟨t0, _, rfl⟩
      rfl

/-- C4 witness: the postcondition at the concrete one-telescope site. -/
theorem c4_witness :
    Site.set_origin site1 (some g0) = .ok site1After ∧
    ∃ o, site1After.origin = some o ∧
      (∀ g, (some g0 : Option Geodetic) = some g → o = g) ∧
      ∀ t ∈ site1After.telescopes,
        t.enu = some (ENU.ofTriple (geodetic2enu t.geodetic.lat
          t.geodetic.lon (t.geodetic.alt + t.focalplane_height)
          o.lat o.lon o.alt)) :=
  ⟨rfl, c4_set_origin_consistent site1 (some g0) site1After rfl⟩

theorem init_none_eq (s : Site) (h0 : s.origin = none) :
    TrajectoryPlanner.init s =
      (match s.set_origin none with
        | .error err => .error err
        | .ok s2 => .ok ⟨s2⟩) := by
  unfold TrajectoryPlanner.init
  rw [h0]

theorem init_some_eq (s : Site) (g : Geodetic) (h0 : s.origin = some g) :
    TrajectoryPlanner.init s = .ok ⟨s⟩ := by
  unfold TrajectoryPlanner.init
  rw [h0]

/-- C10: constructing a `TrajectoryPlanner` on a site with no origin mutates
the site: it runs `set_origin()` with no argument, so the origin becomes the
telescope barycenter (raising the no-telescopes error on an empty site); on
a site whose origin is already set, construction leaves the site completely
unchanged. -/
theorem c10_planner_init_effect (s : Site) :
    (s.origin = none → s.telescopes = [] →
      TrajectoryPlanner.init s =
        .error (.valueError "No telescopes defined in the site.")) ∧
    (s.origin = none → s.telescopes ≠ [] →
      ∃ p b, TrajectoryPlanner.init s = .ok p ∧
        s.compute_barycenter = .ok b ∧
        p.site.origin = some b ∧
        p.site.landing_site = s.landing_site ∧
        p.site.telescopes = s.telescopes.map
          (fun t => { t with enu := some (telescopeEnu t b) })) ∧
    (∀ g, s.origin = some g → TrajectoryPlanner.init s = .ok ⟨s⟩) := by
  refine ⟨?_, ?_, ?_⟩
  · intro h0 hts
    rw [init_none_eq s h0, (c7_empty_site_set_origin s hts).1]
  · intro h0 hne
    have hb : ¬ s.telescopes.isEmpty = true := by
      cases hts : s.telescopes with
      | nil => exact absurd hts hne
      | cons x xs => simp
    cases hbc : s.compute_barycenter with
    | error err =>
      exfalso
      unfold Site.compute_barycenter at hbc
      rw [if_neg hb] at hbc
      exact absurd hbc (by simp)
    | ok b =>
      have hso : s.set_origin none =
          .ok ⟨s.telescopes.map fun t =>
              { t with enu := some (telescopeEnu t b) },
            some b, s.landing_site⟩ := by
        rw [set_origin_none_eq, hbc]
        rfl
      refine ⟨⟨⟨s.telescopes.map fun t =>
          { t with enu := some (telescopeEnu t b) },
        some b, s.landing_site⟩⟩, b, ?_, rfl, rfl, rfl, rfl⟩
      rw [init_none_eq s h0, hso]
  · intro g hg
    exact init_some_eq s g hg

/-- C10 witness: construction on the concrete one-telescope, origin-free
site sets the barycenter origin. -/
theorem c10_witness :
    site1.origin = none ∧ site1.telescopes ≠ [] ∧
    ∃ p b, TrajectoryPlanner.init site1 = .ok p ∧
      site1.compute_barycenter = .ok b ∧
      p.site.origin = some b ∧
      p.site.landing_site = site1.landing_site ∧
      p.site.telescopes = site1.telescopes.map
        (fun t => { t with enu := some (telescopeEnu t b) }) :=
  ⟨rfl, by simp [site1], (c10_planner_init_effect site1).2.1 rfl (by simp [site1])⟩

/-- C5: for an anchored telescope, `compute_boresight` returns the AER from
the telescope's ENU position to the trajectory's `arccenter` when present,
and to the arithmetic mean of the trajectory's ENU points when absent; in
particular the fixed-AER generator leaves `arccenter` absent, so its
boresight is the AER to the mean ENU point. -/
theorem c5_boresight (t : Telescope) (te : ENU) (ht : t.enu = some te) :
    (∀ (traj : DroneTrajectory) (c : ENU), traj.arccenter = some c →
      TrajectoryPlanner.compute_boresight t traj =
        .ok (enu2aer (c.e - te.e) (c.n - te.n) (c.u - te.u))) ∧
    (∀ traj : DroneTrajectory, traj.arccenter = none →
      TrajectoryPlanner.compute_boresight t traj =
        .ok (enu2aer ((meanENU traj.enu).e - te.e)
          ((meanENU traj.enu).n - te.n) ((meanENU traj.enu).u - te.u))) ∧
    (∀ (site : Site) (o : Geodetic) (poi_enu : ENU)
      (slant_range az_center el_center el_range : ℝ) (N : ℤ),
      site.origin = some o → 0 ≤ N →
      ∃ tr, TrajectoryPlanner.old_arc_trajectory_202404 site poi_enu
          slant_range az_center el_center el_range N = .ok tr ∧
        tr.arccenter = none ∧
        TrajectoryPlanner.compute_boresight t tr =
          .ok (enu2aer ((meanENU tr.enu).e - te.e)
            ((meanENU tr.enu).n - te.n) ((meanENU tr.enu).u - te.u))) := by
  refine ⟨?_, ?_, ?_⟩
  · intro traj c hc
    unfold TrajectoryPlanner.compute_boresight
      TrajectoryPlanner.telescope_to_target_aer
    rw [hc, ht]
  · intro traj hc
    unfold TrajectoryPlanner.compute_boresight
      TrajectoryPlanner.telescope_to_target_aer
    rw [hc, ht]
  · intro site o poi_enu slant_range az_center el_center el_range N ho hN
    refine ⟨_, old_arc_eq site o poi_enu slant_range az_center el_center
      el_range N ho hN, rfl, ?_⟩
    unfold TrajectoryPlanner.compute_boresight
      TrajectoryPlanner.telescope_to_target_aer
    rw [ht]
    rfl

/-- Concrete anchored telescope for the boresight witness. -/
noncomputable def telA : Telescope :=
  { name := "A", geodetic := ⟨0, 0, 0⟩, enu := some ⟨0, 0, 0⟩ }

/-- Concrete trajectory with an arc center for the boresight witness. -/
noncomputable def trajA : DroneTrajectory :=
  { enu := [], yaw := [], pitch := [], npoints := 0,
    arccenter := some ⟨1, 1, 1⟩ }

/-- C5 witness: boresight toward an explicit arc center at concrete data. -/
theorem c5_witness :
    telA.enu = some ⟨0, 0, 0⟩ ∧ trajA.arccenter = some ⟨1, 1, 1⟩ ∧
    TrajectoryPlanner.compute_boresight telA trajA =
      .ok (enu2aer ((1 : ℝ) - 0) ((1 : ℝ) - 0) ((1 : ℝ) - 0)) :=
  ⟨rfl, rfl, (c5_boresight telA ⟨0, 0, 0⟩ rfl).1 trajA ⟨1, 1, 1⟩ rfl⟩

theorem orient_fields (poi : ENU) (pts : List ENU) (k : ℕ)
    (hk : k < pts.length) :
    ((arcOrient poi pts).map (·.1)).getD k 0 =
      (enu2aer ((poi - pts.getD k ⟨0, 0, 0⟩).e)
        ((poi - pts.getD k ⟨0, 0, 0⟩).n)
        ((poi - pts.getD k ⟨0, 0, 0⟩).u)).1 ∧
    ((arcOrient poi pts).map (·.2.1)).getD k 0 =
      (enu2aer ((poi - pts.getD k ⟨0, 0, 0⟩).e)
        ((poi - pts.getD k ⟨0, 0, 0⟩).n)
        ((poi - pts.getD k ⟨0, 0, 0⟩).u)).2.1 := by
  have hk2 : k < (arcOrient poi pts).length := by
    rw [arcOrient_length]
    exact hk
  constructor
  · rw [getD_map _ _ k (0, 0, 0) _ hk2, arcOrient_getD poi pts k hk]
  · rw [getD_map _ _ k (0, 0, 0) _ hk2, arcOrient_getD poi pts k hk]

/-- C2: in both generators, the stored yaw and pitch at every index are the
azimuth and elevation components of `enu2aer` applied to the displacement
from the trajectory point to the (actual) POI. -/
theorem c2_orientation_toward_poi (site : Site) (o : Geodetic) (N : ℤ)
    (ho : site.origin = some o) (hN : 0 ≤ N) :
    (∀ (poi_enu : ENU) (slant_range az_center el_center el_range : ℝ),
      ∃ tr, TrajectoryPlanner.old_arc_trajectory_202404 site poi_enu
          slant_range az_center el_center el_range N = .ok tr ∧
        ∀ k : ℕ, k < tr.npoints →
          tr.yaw.getD k 0 =
            (enu2aer ((poi_enu - tr.enu.getD k ⟨0, 0, 0⟩).e)
              ((poi_enu - tr.enu.getD k ⟨0, 0, 0⟩).n)
              ((poi_enu - tr.enu.getD k ⟨0, 0, 0⟩).u)).1 ∧
          tr.pitch.getD k 0 =
            (enu2aer ((poi_enu - tr.enu.getD k ⟨0, 0, 0⟩).e)
              ((poi_enu - tr.enu.getD k ⟨0, 0, 0⟩).n)
              ((poi_enu - tr.enu.getD k ⟨0, 0, 0⟩).u)).2.1) ∧
    (∀ (nominal_poi : ENU) (nominal_az nominal_el nominal_srange : ℝ)
      (poi : ENU) (delta_el : ℝ),
      ∃ tr, TrajectoryPlanner.new_arc_trajectory_202412 site nominal_poi
          nominal_az nominal_el nominal_srange poi delta_el N = .ok tr ∧
        ∀ k : ℕ, k < tr.npoints →
          tr.yaw.getD k 0 =
            (enu2aer ((poi - tr.enu.getD k ⟨0, 0, 0⟩).e)
              ((poi - tr.enu.getD k ⟨0, 0, 0⟩).n)
              ((poi - tr.enu.getD k ⟨0, 0, 0⟩).u)).1 ∧
          tr.pitch.getD k 0 =
            (enu2aer ((poi - tr.enu.getD k ⟨0, 0, 0⟩).e)
              ((poi - tr.enu.getD k ⟨0, 0, 0⟩).n)
              ((poi - tr.enu.getD k ⟨0, 0, 0⟩).u)).2.1) := by
  constructor
  · intro poi_enu slant_range az_center el_center el_range
    refine ⟨_, old_arc_eq site o poi_enu slant_range az_center el_center
      el_range N ho hN, ?_⟩
    intro k hk
    have hk1 : k < (linspace (el_center - el_range / 2)
        (el_center + el_range / 2) N.toNat).length := by
      rw [linspace_length]
      exact hk
    have hk2 : k < (arcPoints poi_enu az_center slant_range
        (linspace (el_center - el_range / 2) (el_center + el_range / 2)
          N.toNat)).length := by
      rw [arcPoints_length]
      exact hk1
    exact orient_fields poi_enu _ k hk2
  · intro nominal_poi nominal_az nominal_el nominal_srange poi delta_el
    refine ⟨_, new_arc_eq site o nominal_poi nominal_az nominal_el
      nominal_srange poi delta_el N ho hN, ?_⟩
    intro k hk
    have hk1 : k < (linspace
        ((newArcAer0 (newArcCenter nominal_poi nominal_az nominal_el
          nominal_srange) poi).2.1 - delta_el / 2)
        ((newArcAer0 (newArcCenter nominal_poi nominal_az nominal_el
          nominal_srange) poi).2.1 + delta_el / 2) N.toNat).length := by
      rw [linspace_length]
      exact hk
    have hk2 : k < (arcPoints poi
        (newArcAer0 (newArcCenter nominal_poi nominal_az nominal_el
          nominal_srange) poi).1
        (newArcAer0 (newArcCenter nominal_poi nominal_az nominal_el
          nominal_srange) poi).2.2
        (linspace
          ((newArcAer0 (newArcCenter nominal_poi nominal_az nominal_el
            nominal_srange) poi).2.1 - delta_el / 2)
          ((newArcAer0 (newArcCenter nominal_poi nominal_az nominal_el
            nominal_srange) poi).2.1 + delta_el / 2) N.toNat)).length := by
      rw [arcPoints_length]
      exact hk1
    exact orient_fields poi _ k hk2

theorem ENU.addComm (a b : ENU) : a + b = b + a := by
  ext
  · show a.e + b.e = b.e + a.e
    ring
  · show a.n + b.n = b.n + a.n
    ring
  · show a.u + b.u = b.u + a.u
    ring

theorem oldArcTraj_enu (site : Site) (o : Geodetic) (poi_enu : ENU)
    (slant_range az_center el_center el_range : ℝ) (n : ℕ) :
    (oldArcTraj site o poi_enu slant_range az_center el_center
        el_range n).enu =
      arcPoints poi_enu az_center slant_range
        (linspace (el_center - el_range / 2) (el_center + el_range / 2) n) :=
  rfl

theorem newArcTraj_enu (site : Site) (o : Geodetic) (nominal_poi : ENU)
    (nominal_az nominal_el nominal_srange : ℝ) (poi : ENU) (delta_el : ℝ)
    (n : ℕ) :
    (newArcTraj site o nominal_poi nominal_az nominal_el nominal_srange
        poi delta_el n).enu =
      arcPoints poi
        (newArcAer0 (newArcCenter nominal_poi nominal_az nominal_el
          nominal_srange) poi).1
        (newArcAer0 (newArcCenter nominal_poi nominal_az nominal_el
          nominal_srange) poi).2.2
        (linspace
          ((newArcAer0 (newArcCenter nominal_poi nominal_az nominal_el
            nominal_srange) poi).2.1 - delta_el / 2)
          ((newArcAer0 (newArcCenter nominal_poi nominal_az nominal_el
            nominal_srange) poi).2.1 + delta_el / 2) n) :=
  rfl

/-- C1 (amended): for every N >= 1 the fixed-AER generator produces exactly
N ENU points, the k-th equal to the POI plus aer2enu(az, el_k, range) with
el_k = el_center - width/2 + k * (width / (N - 1)); for N >= 2 this spacing
is linear and inclusive of both endpoints, while N = 1 yields the single
point at the lower endpoint el_center - width/2, not at the center
elevation. -/
theorem c1_old_arc_points (site : Site) (o : Geodetic) (poi_enu : ENU)
    (slant_range az_center el_center el_range : ℝ) (N : ℤ)
    (ho : site.origin = some o) (hN : 1 ≤ N) :
    ∃ tr, TrajectoryPlanner.old_arc_trajectory_202404 site poi_enu
        slant_range az_center el_center el_range N = .ok tr ∧
      tr.npoints = N.toNat ∧ tr.enu.length = N.toNat ∧
      (∀ k : ℕ, k < N.toNat →
        tr.enu.getD k ⟨0, 0, 0⟩ =
          poi_enu + ENU.ofTriple (aer2enu az_center
            (el_center - el_range / 2 +
              (k : ℝ) * (el_range / ((N : ℝ) - 1))) slant_range)) ∧
      (2 ≤ N →
        el_center - el_range / 2 +
            ((N : ℝ) - 1) * (el_range / ((N : ℝ) - 1)) =
          el_center + el_range / 2) := by
  have hN0 : 0 ≤ N := le_trans (by decide) hN
  have hcast : ((N.toNat : ℕ) : ℝ) = (N : ℝ) := by
    exact_mod_cast congrArg (fun z : ℤ => (z : ℝ)) (Int.toNat_of_nonneg hN0)
  refine ⟨_, old_arc_eq site o poi_enu slant_range az_center el_center
    el_range N ho hN0, rfl, ?_, ?_, ?_⟩
  · rw [oldArcTraj_enu, arcPoints_length, linspace_length]
  · intro k hk
    have hk1 : k < (linspace (el_center - el_range / 2)
        (el_center + el_range / 2) N.toNat).length := by
      rw [linspace_length]
      exact hk
    rw [oldArcTraj_enu, arcPoints_getD _ _ _ _ k (by
      rw [linspace_length]; exact hk), linspace_getD _ _ _ k hk]
    have harg : el_center - el_range / 2 + (k : ℝ) *
        ((el_center + el_range / 2 - (el_center - el_range / 2)) /
          ((N.toNat : ℝ) - 1)) =
        el_center - el_range / 2 +
          (k : ℝ) * (el_range / ((N : ℝ) - 1)) := by
      rw [hcast]
      ring_nf
    rw [harg, ENU.addComm]
  · intro hN2
    have hden : (N : ℝ) - 1 ≠ 0 := by
      have h2 : (2 : ℝ) ≤ (N : ℝ) := by exact_mod_cast hN2
      intro hz
      rw [sub_eq_zero] at hz
      rw [hz] at h2
      norm_num at h2
    field_simp
    ring

/-- C1 counterexample: with N = 1, POI = (0,0,0), azimuth 0, center
elevation 90, sweep width 180 and range 1, the single generated point has
Up component sin 0 = 0 (np.linspace gives the lower endpoint, elevation 0),
while the claimed single center-elevation point has Up component
sin 90 deg = 1. -/
theorem c1_counterexample :
    ¬ ((TrajectoryPlanner.old_arc_trajectory_202404 site1O ⟨0, 0, 0⟩ 1 0 90
          180 1).toOption.map (fun tr => tr.enu.getD 0 ⟨0, 0, 0⟩) =
        some ((⟨0, 0, 0⟩ : ENU) + ENU.ofTriple (aer2enu 0 90 1))) := by
  intro hcl
  rw [old_arc_eq site1O g0 ⟨0, 0, 0⟩ 1 0 90 180 1 rfl (by decide)] at hcl
  have h1 : (oldArcTraj site1O g0 ⟨0, 0, 0⟩ 1 0 90 180
        (Int.toNat 1)).enu.getD 0 ⟨0, 0, 0⟩ =
      (⟨0, 0, 0⟩ : ENU) + ENU.ofTriple (aer2enu 0 90 1) := by
    simpa [Except.toOption] using hcl
  rw [oldArcTraj_enu, arcPoints_getD _ _ _ _ 0 (by
      rw [linspace_length]; decide),
    linspace_getD _ _ _ 0 (by decide)] at h1
  have hu := congrArg ENU.u h1
  have hlow : (90 : ℝ) - 180 / 2 + ((0 : ℕ) : ℝ) *
      ((90 + 180 / 2 - (90 - 180 / 2)) / (((Int.toNat 1 : ℕ) : ℝ) - 1)) =
      0 := by
    norm_num
  rw [show (ENU.ofTriple (aer2enu 0 ((90 : ℝ) - 180 / 2 + ((0 : ℕ) : ℝ) *
      ((90 + 180 / 2 - (90 - 180 / 2)) / (((Int.toNat 1 : ℕ) : ℝ) - 1))) 1)
        + (⟨0, 0, 0⟩ : ENU)).u =
      1 * Real.sin (deg2rad ((90 : ℝ) - 180 / 2 + ((0 : ℕ) : ℝ) *
        ((90 + 180 / 2 - (90 - 180 / 2)) /
          (((Int.toNat 1 : ℕ) : ℝ) - 1)))) + 0 from rfl,
    show ((⟨0, 0, 0⟩ : ENU) + ENU.ofTriple (aer2enu 0 90 1)).u =
      0 + 1 * Real.sin (deg2rad 90) from rfl, hlow] at hu
  have h90 : deg2rad (90 : ℝ) = Real.pi / 2 := by
    unfold deg2rad
    ring
  have h0 : deg2rad (0 : ℝ) = 0 := by
    unfold deg2rad
    ring
  rw [h90, h0, Real.sin_zero, Real.sin_pi_div_two] at hu
  norm_num at hu

/-- C1 witness: the amended statement applied at the concrete one-telescope
anchored site with N = 1. -/
theorem c1_witness :
    site1O.origin = some g0 ∧ (1 : ℤ) ≤ 1 ∧
    ∃ tr, TrajectoryPlanner.old_arc_trajectory_202404 site1O ⟨0, 0, 0⟩ 1 0 0
        0 1 = .ok tr ∧
      tr.npoints = (1 : ℤ).toNat ∧ tr.enu.length = (1 : ℤ).toNat ∧
      (∀ k : ℕ, k < (1 : ℤ).toNat →
        tr.enu.getD k ⟨0, 0, 0⟩ =
          (⟨0, 0, 0⟩ : ENU) + ENU.ofTriple (aer2enu 0
            (0 - 0 / 2 + (k : ℝ) * (0 / (((1 : ℤ) : ℝ) - 1))) 1)) ∧
      (2 ≤ (1 : ℤ) →
        0 - 0 / 2 + (((1 : ℤ) : ℝ) - 1) * (0 / (((1 : ℤ) : ℝ) - 1)) =
          0 + 0 / 2) :=
  ⟨rfl, le_refl 1,
    c1_old_arc_points site1O g0 ⟨0, 0, 0⟩ 1 0 0 0 1 rfl (le_refl 1)⟩

/-- C3: the nominal-pointing generator computes the arc center as nominal
POI plus aer2enu of the nominal pointing, derives (az0, el0, r0) as enu2aer
of (arc center - actual POI), and produces N points equal to the actual POI
plus aer2enu(az0, el_k, r0) with el_k swept linearly around el0 at fixed
az0, r0; the trajectory records that arc center and curveradius r0. -/
theorem c3_new_arc_geometry (site : Site) (o : Geodetic)
    (nominal_poi : ENU) (nominal_az nominal_el nominal_srange : ℝ)
    (poi : ENU) (delta_el : ℝ) (N : ℤ)
    (ho : site.origin = some o) (hN : 0 ≤ N) :
    ∃ tr, TrajectoryPlanner.new_arc_trajectory_202412 site nominal_poi
        nominal_az nominal_el nominal_srange poi delta_el N = .ok tr ∧
      tr.arccenter = some (ENU.ofTriple (aer2enu nominal_az nominal_el
        nominal_srange) + nominal_poi) ∧
      tr.curveradius = some ((enu2aer
        ((ENU.ofTriple (aer2enu nominal_az nominal_el nominal_srange) +
          nominal_poi - poi).e)
        ((ENU.ofTriple (aer2enu nominal_az nominal_el nominal_srange) +
          nominal_poi - poi).n)
        ((ENU.ofTriple (aer2enu nominal_az nominal_el nominal_srange) +
          nominal_poi - poi).u)).2.2) ∧
      tr.npoints = N.toNat ∧ tr.enu.length = N.toNat ∧
      (∀ k : ℕ, k < N.toNat →
        tr.enu.getD k ⟨0, 0, 0⟩ =
          poi + ENU.ofTriple (aer2enu
            (enu2aer
              ((ENU.ofTriple (aer2enu nominal_az nominal_el
                nominal_srange) + nominal_poi - poi).e)
              ((ENU.ofTriple (aer2enu nominal_az nominal_el
                nominal_srange) + nominal_poi - poi).n)
              ((ENU.ofTriple (aer2enu nominal_az nominal_el
                nominal_srange) + nominal_poi - poi).u)).1
            ((enu2aer
              ((ENU.ofTriple (aer2enu nominal_az nominal_el
                nominal_srange) + nominal_poi - poi).e)
              ((ENU.ofTriple (aer2enu nominal_az nominal_el
                nominal_srange) + nominal_poi - poi).n)
              ((ENU.ofTriple (aer2enu nominal_az nominal_el
                nominal_srange) + nominal_poi - poi).u)).2.1
              - delta_el / 2 + (k : ℝ) * (delta_el / ((N : ℝ) - 1)))
            (enu2aer
              ((ENU.ofTriple (aer2enu nominal_az nominal_el
                nominal_srange) + nominal_poi - poi).e)
              ((ENU.ofTriple (aer2enu nominal_az nominal_el
                nominal_srange) + nominal_poi - poi).n)
              ((ENU.ofTriple (aer2enu nominal_az nominal_el
                nominal_srange) + nominal_poi - poi).u)).2.2)) := by
  have hcast : ((N.toNat : ℕ) : ℝ) = (N : ℝ) := by
    exact_mod_cast congrArg (fun z : ℤ => (z : ℝ)) (Int.toNat_of_nonneg hN)
  have hcenter : newArcCenter nominal_poi nominal_az nominal_el
      nominal_srange =
      ENU.ofTriple (aer2enu nominal_az nominal_el nominal_srange) +
        nominal_poi := rfl
  have haer : newArcAer0 (newArcCenter nominal_poi nominal_az nominal_el
      nominal_srange) poi =
      enu2aer
        ((ENU.ofTriple (aer2enu nominal_az nominal_el nominal_srange) +
          nominal_poi - poi).e)
        ((ENU.ofTriple (aer2enu nominal_az nominal_el nominal_srange) +
          nominal_poi - poi).n)
        ((ENU.ofTriple (aer2enu nominal_az nominal_el nominal_srange) +
          nominal_poi - poi).u) := rfl
  refine ⟨_, new_arc_eq site o nominal_poi nominal_az nominal_el
    nominal_srange poi delta_el N ho hN, rfl, rfl, rfl, ?_, ?_⟩
  · rw [newArcTraj_enu, arcPoints_length, linspace_length]
  · intro k hk
    rw [newArcTraj_enu, arcPoints_getD _ _ _ _ k (by
      rw [linspace_length]; exact hk), linspace_getD _ _ _ k hk, haer]
    have harg : (enu2aer
        ((ENU.ofTriple (aer2enu nominal_az nominal_el nominal_srange) +
          nominal_poi - poi).e)
        ((ENU.ofTriple (aer2enu nominal_az nominal_el nominal_srange) +
          nominal_poi - poi).n)
        ((ENU.ofTriple (aer2enu nominal_az nominal_el nominal_srange) +
          nominal_poi - poi).u)).2.1 - delta_el / 2 + (k : ℝ) *
        (((enu2aer
          ((ENU.ofTriple (aer2enu nominal_az nominal_el nominal_srange) +
            nominal_poi - poi).e)
          ((ENU.ofTriple (aer2enu nominal_az nominal_el nominal_srange) +
            nominal_poi - poi).n)
          ((ENU.ofTriple (aer2enu nominal_az nominal_el nominal_srange) +
            nominal_poi - poi).u)).2.1 + delta_el / 2 -
          ((enu2aer
            ((ENU.ofTriple (aer2enu nominal_az nominal_el nominal_srange) +
              nominal_poi - poi).e)
            ((ENU.ofTriple (aer2enu nominal_az nominal_el nominal_srange) +
              nominal_poi - poi).n)
            ((ENU.ofTriple (aer2enu nominal_az nominal_el nominal_srange) +
              nominal_poi - poi).u)).2.1 - delta_el / 2)) /
          ((N.toNat : ℝ) - 1)) =
        (enu2aer
          ((ENU.ofTriple (aer2enu nominal_az nominal_el nominal_srange) +
            nominal_poi - poi).e)
          ((ENU.ofTriple (aer2enu nominal_az nominal_el nominal_srange) +
            nominal_poi - poi).n)
          ((ENU.ofTriple (aer2enu nominal_az nominal_el nominal_srange) +
            nominal_poi - poi).u)).2.1 - delta_el / 2 + (k : ℝ) *
          (delta_el / ((N : ℝ) - 1)) := by
      rw [hcast]
      ring_nf
    rw [harg, ENU.addComm]

/-- C3 witness: the nominal-pointing geometry at the concrete anchored site
with 5 sweep points. -/
theorem c3_witness :
    site1O.origin = some g0 ∧ (0 : ℤ) ≤ 5 ∧
    ∃ tr, TrajectoryPlanner.new_arc_trajectory_202412 site1O ⟨0, 0, 0⟩ 0 0 1
        ⟨0, 0, 0⟩ 0 5 = .ok tr ∧
      tr.arccenter = some (ENU.ofTriple (aer2enu 0 0 1) + ⟨0, 0, 0⟩) ∧
      tr.curveradius = some ((enu2aer
        ((ENU.ofTriple (aer2enu 0 0 1) + ⟨0, 0, 0⟩ - ⟨0, 0, 0⟩).e)
        ((ENU.ofTriple (aer2enu 0 0 1) + ⟨0, 0, 0⟩ - ⟨0, 0, 0⟩).n)
        ((ENU.ofTriple (aer2enu 0 0 1) + ⟨0, 0, 0⟩ - ⟨0, 0, 0⟩).u)).2.2) ∧
      tr.npoints = (5 : ℤ).toNat ∧ tr.enu.length = (5 : ℤ).toNat ∧
      (∀ k : ℕ, k < (5 : ℤ).toNat →
        tr.enu.getD k ⟨0, 0, 0⟩ =
          (⟨0, 0, 0⟩ : ENU) + ENU.ofTriple (aer2enu
            (enu2aer
              ((ENU.ofTriple (aer2enu 0 0 1) + ⟨0, 0, 0⟩ - ⟨0, 0, 0⟩).e)
              ((ENU.ofTriple (aer2enu 0 0 1) + ⟨0, 0, 0⟩ - ⟨0, 0, 0⟩).n)
              ((ENU.ofTriple (aer2enu 0 0 1) + ⟨0, 0, 0⟩ - ⟨0, 0, 0⟩).u)).1
            ((enu2aer
              ((ENU.ofTriple (aer2enu 0 0 1) + ⟨0, 0, 0⟩ - ⟨0, 0, 0⟩).e)
              ((ENU.ofTriple (aer2enu 0 0 1) + ⟨0, 0, 0⟩ - ⟨0, 0, 0⟩).n)
              ((ENU.ofTriple (aer2enu 0 0 1) + ⟨0, 0, 0⟩ -
                ⟨0, 0, 0⟩).u)).2.1
              - 0 / 2 + (k : ℝ) * (0 / (((5 : ℤ) : ℝ) - 1)))
            (enu2aer
              ((ENU.ofTriple (aer2enu 0 0 1) + ⟨0, 0, 0⟩ - ⟨0, 0, 0⟩).e)
              ((ENU.ofTriple (aer2enu 0 0 1) + ⟨0, 0, 0⟩ - ⟨0, 0, 0⟩).n)
              ((ENU.ofTriple (aer2enu 0 0 1) + ⟨0, 0, 0⟩ -
                ⟨0, 0, 0⟩).u)).2.2)) :=
  ⟨rfl, by decide,
    c3_new_arc_geometry site1O g0 ⟨0, 0, 0⟩ 0 0 1 ⟨0, 0, 0⟩ 0 5 rfl
      (by decide)⟩

/-- C2 witness: the orientation property applied at the concrete anchored
site with N = 1 (the old-arc conjunct, instantiated). -/
theorem c2_witness :
    site1O.origin = some g0 ∧ (0 : ℤ) ≤ 1 ∧
    ∃ tr, TrajectoryPlanner.old_arc_trajectory_202404 site1O ⟨0, 0, 0⟩ 1 0 0
        0 1 = .ok tr ∧
      ∀ k : ℕ, k < tr.npoints →
        tr.yaw.getD k 0 =
          (enu2aer (((⟨0, 0, 0⟩ : ENU) - tr.enu.getD k ⟨0, 0, 0⟩).e)
            (((⟨0, 0, 0⟩ : ENU) - tr.enu.getD k ⟨0, 0, 0⟩).n)
            (((⟨0, 0, 0⟩ : ENU) - tr.enu.getD k ⟨0, 0, 0⟩).u)).1 ∧
        tr.pitch.getD k 0 =
          (enu2aer (((⟨0, 0, 0⟩ : ENU) - tr.enu.getD k ⟨0, 0, 0⟩).e)
            (((⟨0, 0, 0⟩ : ENU) - tr.enu.getD k ⟨0, 0, 0⟩).n)
            (((⟨0, 0, 0⟩ : ENU) - tr.enu.getD k ⟨0, 0, 0⟩).u)).2.1 :=
  ⟨rfl, by decide,
    (c2_orientation_toward_poi site1O g0 1 rfl (by decide)).1
      ⟨0, 0, 0⟩ 1 0 0 0⟩

/-- C6 (amended): neither generator contains a point-count check of its own
and no `InvalidTrajectoryError` exists in the code; for N < 0 both fail
with numpy's `ValueError` about a negative sample count, and for every
N >= 0 - including N = 0 - both succeed, producing a trajectory with
exactly N points (N = 0 yields an empty trajectory rather than an
error). -/
theorem c6_point_count (site : Site) (o : Geodetic) (poi_enu : ENU)
    (slant_range az_center el_center el_range : ℝ) (nominal_poi : ENU)
    (nominal_az nominal_el nominal_srange delta_el : ℝ) (N : ℤ)
    (ho : site.origin = some o) :
    (N < 0 →
      TrajectoryPlanner.old_arc_trajectory_202404 site poi_enu slant_range
          az_center el_center el_range N =
        .error (.valueError "Number of samples must be non-negative.") ∧
      TrajectoryPlanner.new_arc_trajectory_202412 site nominal_poi
          nominal_az nominal_el nominal_srange poi_enu delta_el N =
        .error (.valueError "Number of samples must be non-negative.")) ∧
    (0 ≤ N →
      (∃ tr, TrajectoryPlanner.old_arc_trajectory_202404 site poi_enu
          slant_range az_center el_center el_range N = .ok tr ∧
        tr.npoints = N.toNat ∧ tr.enu.length = N.toNat) ∧
      (∃ tr, TrajectoryPlanner.new_arc_trajectory_202412 site nominal_poi
          nominal_az nominal_el nominal_srange poi_enu delta_el N =
          .ok tr ∧
        tr.npoints = N.toNat ∧ tr.enu.length = N.toNat)) := by
  constructor
  · intro hneg
    constructor
    · unfold TrajectoryPlanner.old_arc_trajectory_202404
      rw [if_pos hneg]
    · unfold TrajectoryPlanner.new_arc_trajectory_202412
      rw [if_pos hneg]
  · intro hN
    constructor
    · refine ⟨_, old_arc_eq site o poi_enu slant_range az_center el_center
        el_range N ho hN, rfl, ?_⟩
      rw [oldArcTraj_enu, arcPoints_length, linspace_length]
    · refine ⟨_, new_arc_eq site o nominal_poi nominal_az nominal_el
        nominal_srange poi_enu delta_el N ho hN, rfl, ?_⟩
      rw [newArcTraj_enu, arcPoints_length, linspace_length]

/-- C6 counterexample: at point count N = 0 (a value the claim says must
fail with `InvalidTrajectoryError`), both generators succeed on the
concrete anchored site and return an empty trajectory with 0 points. -/
theorem c6_counterexample :
    (TrajectoryPlanner.old_arc_trajectory_202404 site1O ⟨0, 0, 0⟩ 1 0 0 0
        0).toOption.map DroneTrajectory.npoints = some 0 ∧
    (TrajectoryPlanner.new_arc_trajectory_202412 site1O ⟨0, 0, 0⟩ 0 0 1
        ⟨0, 0, 0⟩ 0 0).toOption.map DroneTrajectory.npoints = some 0 := by
  constructor
  · rw [old_arc_eq site1O g0 ⟨0, 0, 0⟩ 1 0 0 0 0 rfl (by decide)]
    rfl
  · rw [new_arc_eq site1O g0 ⟨0, 0, 0⟩ 0 0 1 ⟨0, 0, 0⟩ 0 0 rfl (by decide)]
    rfl

/-- C6 witness: the amended statement applied at N = -1 on the concrete
anchored site: both generators fail with the numpy ValueError. -/
theorem c6_witness :
    site1O.origin = some g0 ∧ ((-1 : ℤ) < 0) ∧
    (TrajectoryPlanner.old_arc_trajectory_202404 site1O ⟨0, 0, 0⟩ 1 0 0 0
        (-1) =
      .error (.valueError "Number of samples must be non-negative.") ∧
    TrajectoryPlanner.new_arc_trajectory_202412 site1O ⟨0, 0, 0⟩ 0 0 1
        ⟨0, 0, 0⟩ 0 (-1) =
      .error (.valueError "Number of samples must be non-negative.")) :=
  ⟨rfl, by decide,
    (c6_point_count site1O g0 ⟨0, 0, 0⟩ 1 0 0 0 ⟨0, 0, 0⟩ 0 0 1 0 (-1)
      rfl).1 (by decide)⟩

end DronePlan
